import Mathlib

/-!
Shallow embedding of the three allocator engines of the repository
(`simple_segregated_storage.rs`, `segregated_free_list.rs`, `buddy.rs`).

Modelling conventions:
* A `NonNull<[u8]>` free-list entry is a `Block`: its start address and its
  slice length (the fat-pointer metadata).  Addresses are `Nat`.
* The host allocator (`System.allocate` with layout `(512, 16)`) is an oracle
  `bases : Nat → Nat` giving the base address of the k-th chunk acquired.
* The three `f64` counters only ever hold exact small integers, so they are
  embedded as `Int` (subtraction must be able to go below zero).
* Rust panics (checked `usize` underflow such as `size - 1` at size 0 — debug
  overflow semantics, the mode the test suite runs in — and out-of-bounds
  indexing such as `first_byte_ptrs[0]` on an empty vector) are embedded as
  `AllocOut.fault` / `Option.none`.
* Each `while` loop is embedded as structural recursion on a fuel argument
  large enough to cover every iteration count the source loop can reach
  (the rounding loop halves a 64-bit `usize`, so fuel 64 is exact; the list
  scans are bounded by the list-array lengths).
-/

namespace DMM

/-- A byte range on a free list: start address and length (models a
`NonNull<[u8]>`, whose metadata carries the slice length). -/
structure Block where
  addr : Nat
  len : Nat
deriving DecidableEq

/-- Read free list `i` of a list array (`self.lists[i]`). -/
def listGet (ls : List (List Block)) (i : Nat) : List Block := ls.getD i []

/-- Write free list `i` of a list array. -/
def listSet (ls : List (List Block)) (i : Nat) (l : List Block) : List (List Block) :=
  ls.set i l

/-- Remove the first block satisfying `q`, returning it and the remaining
list (models the `CursorMut` scan with `remove_current`). -/
def removeFirstBlock (q : Block → Bool) : List Block → Option Block × List Block
  | [] => (none, [])
  | b :: rest =>
    if q b then (some b, rest)
    else
      let r := removeFirstBlock q rest
      (r.1, b :: r.2)

/-- The power-of-two rounding loop shared by SSS and Buddy:
`while curr != 0 { curr >>= 1; rounded <<= 1; index += 1 }`.
The loop halves `curr` each step, so on a 64-bit `usize` it runs at most 64
iterations; fuel 64 therefore reproduces the source loop exactly. -/
def po2Loop : Nat → Nat → Nat → Nat → Nat × Nat
  | 0, _, rounded, index => (rounded, index)
  | fuel + 1, curr, rounded, index =>
    if curr = 0 then (rounded, index)
    else po2Loop fuel (curr / 2) (rounded * 2) (index + 1)

/-- Rounded size and size-class index for a request of `size` bytes
(`size ≥ 1`; the source computes `size - 1` on a `usize`). -/
def po2Round (size : Nat) : Nat × Nat := po2Loop 64 (size - 1) 1 0

/-- Outcome of `allocate`: a block together with the post-state, the
`Err(AllocError)` return (carrying the unchanged state), or a panic. -/
inductive AllocOut (σ : Type) where
  | ok : Block → σ → AllocOut σ
  | error : σ → AllocOut σ
  | fault : AllocOut σ
deriving DecidableEq

/-! ## Simple Segregated Storage (`simple_segregated_storage.rs`) -/

structure SimpleSegregatedStorage where
  lists : List (List Block)
  allocated_first_byte : List Nat
  total_size : Int
  peak_allocated_size : Int
  current_allocated_size : Int
deriving DecidableEq

/-- `SimpleSegregatedStorage::new`: ten empty lists, no arenas, zero counters. -/
def SimpleSegregatedStorage.new : SimpleSegregatedStorage :=
  ⟨List.replicate 10 [], [], 0, 0, 0⟩

/-- `SimpleSegregatedStorage::reset` (`MemStats`): zero the counters, release
every arena chunk to the host, clear the base vector, drain every list. -/
def SimpleSegregatedStorage.reset (s : SimpleSegregatedStorage) : SimpleSegregatedStorage :=
  { s with
    total_size := 0
    peak_allocated_size := 0
    current_allocated_size := 0
    allocated_first_byte := []
    lists := s.lists.map (fun _ => []) }

/-- `chunks_exact_mut(rounded)` over a fresh 512-byte chunk: the
`512 / rounded` sub-blocks pushed onto the class list in address order. -/
def carveChunk (base rounded : Nat) : List Block :=
  (List.range (512 / rounded)).map (fun k => ⟨base + k * rounded, rounded⟩)

/-- `Locked<SimpleSegregatedStorage>::allocate`.  Rejects `size > 512`;
rounds up to the next power of two; on an empty class list acquires a fresh
512-byte chunk, carves it into `512 / rounded` blocks and grows `total_size`;
updates `current`/`peak`; pops and returns the list front. -/
def SimpleSegregatedStorage.allocate (bases : Nat → Nat) (s : SimpleSegregatedStorage)
    (size : Nat) : AllocOut SimpleSegregatedStorage :=
  if 512 < size then .error s
  else if size = 0 then .fault
  else
    let rounded := (po2Round size).1
    let index := (po2Round size).2
    let s1 :=
      if (listGet s.lists index).isEmpty then
        let base := bases s.allocated_first_byte.length
        { s with
          lists := listSet s.lists index (listGet s.lists index ++ carveChunk base rounded)
          allocated_first_byte := s.allocated_first_byte ++ [base]
          total_size := s.total_size + 512 }
      else s
    let s2 := { s1 with
      current_allocated_size := s1.current_allocated_size + (rounded : Int)
      peak_allocated_size :=
        max (s1.current_allocated_size + (rounded : Int)) s1.peak_allocated_size }
    match listGet s2.lists index with
    | [] => .fault
    | b :: rest => .ok b { s2 with lists := listSet s2.lists index rest }

/-- `Locked<SimpleSegregatedStorage>::deallocate`.  Ignores `size > 512`;
pushes the range back rewrapped with the caller-declared length
(`slice_from_raw_parts(ptr, layout.size())`, not `rounded`); subtracts the
rounded size from `current_allocated_size`. -/
def SimpleSegregatedStorage.deallocate (s : SimpleSegregatedStorage) (p size : Nat) :
    Option SimpleSegregatedStorage :=
  if 512 < size then some s
  else if size = 0 then none
  else
    let rounded := (po2Round size).1
    let index := (po2Round size).2
    some { s with
      lists := listSet s.lists index (listGet s.lists index ++ [⟨p, size⟩])
      current_allocated_size := s.current_allocated_size - (rounded : Int) }

/-! ## Segregated Free List (`segregated_free_list.rs`) -/

structure SegregatedFreeList where
  lists : List (List Block)
  allocated_first_byte : List Nat
  total_size : Int
  peak_allocated_size : Int
  current_allocated_size : Int
deriving DecidableEq

/-- `SegregatedFreeList::new`: five empty lists, no arenas, zero counters. -/
def SegregatedFreeList.new : SegregatedFreeList :=
  ⟨List.replicate 5 [], [], 0, 0, 0⟩

/-- `SegregatedFreeList::reset` (`MemStats`). -/
def SegregatedFreeList.reset (s : SegregatedFreeList) : SegregatedFreeList :=
  { s with
    total_size := 0
    peak_allocated_size := 0
    current_allocated_size := 0
    allocated_first_byte := []
    lists := s.lists.map (fun _ => []) }

/-- The SFL rounding loop: like `po2Loop` but the index saturates
(`if rounded_size > 32 && index < 4 { index += 1 }`, checked on the freshly
doubled `rounded_size`). -/
def sflLoop : Nat → Nat → Nat → Nat → Nat × Nat
  | 0, _, rounded, index => (rounded, index)
  | fuel + 1, curr, rounded, index =>
    if curr = 0 then (rounded, index)
    else
      let rounded2 := rounded * 2
      let index2 := if 32 < rounded2 ∧ index < 4 then index + 1 else index
      sflLoop fuel (curr / 2) rounded2 index2

/-- SFL size-class index for a block of `len ≥ 1` bytes. -/
def sflIndex (len : Nat) : Nat := (sflLoop 64 (len - 1) 1 0).2

/-- The SFL outer scan `while index < 5 && found.is_none()`: walk lists
`index..4`, removing the first block satisfying `q` from the first list that
has one.  Fuel 5 covers every index the source loop can visit. -/
def sflScan (q : Block → Bool) : Nat → Nat → List (List Block) →
    Option Block × List (List Block)
  | 0, _, ls => (none, ls)
  | fuel + 1, index, ls =>
    if 5 ≤ index then (none, ls)
    else
      match removeFirstBlock q (listGet ls index) with
      | (some b, rest) => (some b, listSet ls index rest)
      | (none, _) => sflScan q fuel (index + 1) ls

/-- `Locked<SegregatedFreeList>::allocate`.  Rejects `size > 512`; first-fit
scan from the class of the requested size; on a miss acquires a fresh
512-byte chunk (used directly as the found block) and grows `total_size`;
splits off a prefix of exactly `size` bytes; a non-empty suffix is filed by
its own length, and only in that case are `current`/`peak` updated (the
source updates the stats inside the `remaining_size > 0` branch). -/
def SegregatedFreeList.allocate (bases : Nat → Nat) (s : SegregatedFreeList)
    (size : Nat) : AllocOut SegregatedFreeList :=
  if 512 < size then .error s
  else if size = 0 then .fault
  else
    let start := sflIndex size
    let scan := sflScan (fun b => decide (size ≤ b.len)) 5 start s.lists
    let s1 :=
      match scan.1 with
      | some _ => { s with lists := scan.2 }
      | none =>
        { s with
          lists := scan.2
          allocated_first_byte :=
            s.allocated_first_byte ++ [bases s.allocated_first_byte.length]
          total_size := s.total_size + 512 }
    let fb : Block :=
      match scan.1 with
      | some b => b
      | none => ⟨bases s.allocated_first_byte.length, 512⟩
    let allocated : Block := ⟨fb.addr, size⟩
    let remaining_size := fb.len - size
    if 0 < remaining_size then
      let ri := sflIndex remaining_size
      let s2 := { s1 with
        lists := listSet s1.lists ri
          (listGet s1.lists ri ++ [⟨fb.addr + size, remaining_size⟩])
        current_allocated_size := s1.current_allocated_size + (size : Int)
        peak_allocated_size :=
          max (s1.current_allocated_size + (size : Int)) s1.peak_allocated_size }
      .ok allocated s2
    else .ok allocated s1

/-- `Locked<SegregatedFreeList>::deallocate` (forward coalesce).  Scan all
five lists for a block starting at `p + size`; if found remove it and extend
the freed range by its length; file the result by its total length; subtract
the declared `size` from `current_allocated_size`. -/
def SegregatedFreeList.deallocate (s : SegregatedFreeList) (p size : Nat) :
    Option SegregatedFreeList :=
  let target := p + size
  let scan := sflScan (fun b => b.addr == target) 5 0 s.lists
  let merged : Block :=
    match scan.1 with
    | some nb => ⟨p, size + nb.len⟩
    | none => ⟨p, size⟩
  if merged.len = 0 then none
  else
    let ri := sflIndex merged.len
    some { s with
      lists := listSet scan.2 ri (listGet scan.2 ri ++ [merged])
      current_allocated_size := s.current_allocated_size - (size : Int) }

/-! ## Binary Buddy (`buddy.rs`) -/

structure Buddy where
  lists : List (List Block)
  first_byte_ptrs : List Nat
  total_size : Int
  peak_allocated_size : Int
  current_allocated_size : Int
deriving DecidableEq

/-- `Buddy::new`: ten empty lists, no arenas, zero counters. -/
def Buddy.new : Buddy := ⟨List.replicate 10 [], [], 0, 0, 0⟩

/-- `Buddy::reset` (`MemStats`). -/
def Buddy.reset (s : Buddy) : Buddy :=
  { s with
    total_size := 0
    peak_allocated_size := 0
    current_allocated_size := 0
    first_byte_ptrs := []
    lists := s.lists.map (fun _ => []) }

/-- The pre-split search `while find_index < 10 { if empty { += 1 } else break }`:
first index `≥ start` with a non-empty list, or `10`.  Fuel 11 covers the at
most ten increments. -/
def findNonEmpty : Nat → Nat → List (List Block) → Nat
  | 0, index, _ => index
  | fuel + 1, index, ls =>
    if index < 10 then
      if (listGet ls index).isEmpty then findNonEmpty fuel (index + 1) ls
      else index
    else index

/-- The buddy split loop (`while allocated_block.is_none()`): pop from
`lists[index]` if possible; otherwise pop from `lists[find_index]`
(incrementing `find_index` past empty lists, an out-of-range index being a
panic), split the popped block in half and push both halves onto
`lists[find_index - 1]`.  Fuel 32 covers the at most nine upward steps and
nine downward splits of any run. -/
def splitLoop : Nat → Nat → Nat → List (List Block) → Option (Block × List (List Block))
  | 0, _, _, _ => none
  | fuel + 1, index, findIndex, ls =>
    match listGet ls index with
    | b :: rest => some (b, listSet ls index rest)
    | [] =>
      if 10 ≤ findIndex then none
      else
        match listGet ls findIndex with
        | [] => splitLoop fuel index (findIndex + 1) ls
        | ub :: rest =>
          let fi := findIndex - 1
          let half := ub.len / 2
          let ls1 := listSet ls findIndex rest
          let ls2 := listSet ls1 fi
            (listGet ls1 fi ++ [⟨ub.addr, half⟩, ⟨ub.addr + half, half⟩])
          splitLoop fuel index fi ls2

/-- `Locked<Buddy>::allocate`.  Rejects `size > 512`; rounds up to the next
power of two; if no list at or above the class is non-empty, acquires a fresh
512-byte chunk, pushes it onto `lists[9]`, records its base and grows
`total_size`; runs the split loop; updates `current`/`peak`. -/
def Buddy.allocate (bases : Nat → Nat) (s : Buddy) (size : Nat) : AllocOut Buddy :=
  if 512 < size then .error s
  else if size = 0 then .fault
  else
    let rounded := (po2Round size).1
    let index := (po2Round size).2
    let fi := findNonEmpty 11 index s.lists
    let s1 :=
      if 10 ≤ fi then
        let base := bases s.first_byte_ptrs.length
        { s with
          lists := listSet s.lists 9 (listGet s.lists 9 ++ [⟨base, 512⟩])
          first_byte_ptrs := s.first_byte_ptrs ++ [base]
          total_size := s.total_size + 512 }
      else s
    match splitLoop 32 index (index + 1) s1.lists with
    | none => .fault
    | some br =>
      .ok br.1 { s1 with
        lists := br.2
        current_allocated_size := s1.current_allocated_size + (rounded : Int)
        peak_allocated_size :=
          max (s1.current_allocated_size + (rounded : Int)) s1.peak_allocated_size }

/-- The buddy coalescing loop.  At each level: a size-512 block is pushed
onto `lists[9]` unchanged; otherwise the buddy's normalized address is
`normalized | rounded`, or `normalized ^ rounded` when that equals
`normalized`; if the buddy is on `lists[index]` it is removed and merging
continues one level up from the lower of the two addresses, else the block
is pushed onto `lists[index]`.  Fuel 12 covers the at most ten levels. -/
def buddyFreeLoop : Nat → Nat → Nat → Nat → Nat → Buddy → Option Buddy
  | 0, _, _, _, _, _ => none
  | fuel + 1, offset, p, rounded, index, s =>
    if rounded = 512 then
      some { s with lists := listSet s.lists 9 (listGet s.lists 9 ++ [⟨p, rounded⟩]) }
    else if p < offset then none
    else
      let na := p - offset
      let t := na ||| rounded
      let nb := if t = na then na ^^^ rounded else t
      let buddy_address := nb + offset
      if 10 ≤ index then none
      else
        match removeFirstBlock (fun b => b.addr == buddy_address) (listGet s.lists index) with
        | (none, _) =>
          some { s with
            lists := listSet s.lists index (listGet s.lists index ++ [⟨p, rounded⟩]) }
        | (some bd, rest) =>
          let s1 := { s with lists := listSet s.lists index rest }
          let p2 := if buddy_address < p then bd.addr else p
          buddyFreeLoop fuel offset p2 (rounded * 2) (index + 1) s1

/-- `Locked<Buddy>::deallocate`.  Reads `first_byte_ptrs[0]` unconditionally
(a panic when no arena chunk is held), then rounds the declared size
(`size - 1` underflows at size 0), subtracts the rounded size from
`current_allocated_size`, and runs the coalescing loop. -/
def Buddy.deallocate (s : Buddy) (p size : Nat) : Option Buddy :=
  match s.first_byte_ptrs with
  | [] => none
  | offset :: _ =>
    if size = 0 then none
    else
      let rounded := (po2Round size).1
      let index := (po2Round size).2
      buddyFreeLoop 12 offset p rounded index
        { s with current_allocated_size := s.current_allocated_size - (rounded : Int) }

/-! ## Operation sequences -/

/-- A driver operation: `alloc size` or `free addr size` (the layout the
caller declares on release). -/
inductive Op where
  | alloc : Nat → Op
  | free : Nat → Nat → Op
deriving DecidableEq

/-- Run a list of operations on an SSS engine, collecting the blocks the
successful allocations return; `none` on any panic or allocation error. -/
def runSSS (bases : Nat → Nat) :
    SimpleSegregatedStorage → List Op → Option (List Block × SimpleSegregatedStorage)
  | s, [] => some ([], s)
  | s, .alloc n :: ops =>
    match SimpleSegregatedStorage.allocate bases s n with
    | .ok b s1 => (runSSS bases s1 ops).map (fun r => (b :: r.1, r.2))
    | _ => none
  | s, .free p n :: ops =>
    match SimpleSegregatedStorage.deallocate s p n with
    | some s1 => runSSS bases s1 ops
    | none => none

/-- Run a list of operations on an SFL engine. -/
def runSFL (bases : Nat → Nat) :
    SegregatedFreeList → List Op → Option (List Block × SegregatedFreeList)
  | s, [] => some ([], s)
  | s, .alloc n :: ops =>
    match SegregatedFreeList.allocate bases s n with
    | .ok b s1 => (runSFL bases s1 ops).map (fun r => (b :: r.1, r.2))
    | _ => none
  | s, .free p n :: ops =>
    match SegregatedFreeList.deallocate s p n with
    | some s1 => runSFL bases s1 ops
    | none => none

/-- Run a list of operations on a Buddy engine. -/
def runBuddy (bases : Nat → Nat) :
    Buddy → List Op → Option (List Block × Buddy)
  | s, [] => some ([], s)
  | s, .alloc n :: ops =>
    match Buddy.allocate bases s n with
    | .ok b s1 => (runBuddy bases s1 ops).map (fun r => (b :: r.1, r.2))
    | _ => none
  | s, .free p n :: ops =>
    match Buddy.deallocate s p n with
    | some s1 => runBuddy bases s1 ops
    | none => none

/-- A concrete host oracle: the k-th 512-byte chunk at base `1024 + 512 k`
(16-aligned, non-overlapping, here mutually adjacent). -/
def demoBases : Nat → Nat := fun k => 1024 + 512 * k

/-- Claim C1's buddy relation on one free list: two distinct positions hold
blocks of size `2^i` whose start offsets relative to the arena base differ by
XOR `2^i`. -/
def pairInList (base i : Nat) : List Block → Bool
  | [] => false
  | b :: rest =>
    rest.any (fun c =>
      b.len == 2 ^ i && c.len == 2 ^ i &&
        ((b.addr - base) ^^^ (c.addr - base)) == 2 ^ i) ||
    pairInList base i rest

/-- Two buddy blocks are simultaneously present on some free list. -/
def hasBuddyPair (base : Nat) (ls : List (List Block)) : Bool :=
  (List.range ls.length).any (fun i => pairInList base i (listGet ls i))

/-! ## Claims -/

/-- Buddy state after `allocate(512)` twice and deallocating both blocks,
with the host returning adjacent chunks at 1024 and 1536. -/
def c1Final : Buddy :=
  ⟨[[], [], [], [], [], [], [], [], [], [⟨1536, 512⟩, ⟨1024, 512⟩]],
    [1024, 1536], 1024, 1024, 0⟩

/-- Claim C1 (code_bug evidence): with the host returning two adjacent
chunks, allocating 512 bytes twice and deallocating both returned blocks
(each a deallocate of a block previously returned by allocate) leaves two
size-512 blocks on free list 9 whose offsets relative to the arena base are
0 and 512 = 0 XOR 2^9: two buddies simultaneously present after a
deallocate, contradicting the claimed invariant. -/
theorem c1_buddy_pair_after_dealloc :
    runBuddy demoBases Buddy.new
        [.alloc 512, .alloc 512, .free 1536 512, .free 1024 512] =
      some ([⟨1024, 512⟩, ⟨1536, 512⟩], c1Final) ∧
    hasBuddyPair 1024 c1Final.lists = true := by
  decide

/-- Buddy state after `allocate(120, 8)` on a fresh engine. -/
def c2Mid1 : Buddy :=
  ⟨[[], [], [], [], [], [], [], [⟨1152, 128⟩], [⟨1280, 256⟩], []],
    [1024], 512, 128, 128⟩

/-- Buddy state after `allocate(120, 8)` then `allocate(32, 8)`. -/
def c2Mid2 : Buddy :=
  ⟨[[], [], [], [], [], [⟨1184, 32⟩], [⟨1216, 64⟩], [], [⟨1280, 256⟩], []],
    [1024], 512, 160, 160⟩

/-- Buddy state after additionally deallocating both blocks in reverse
order of allocation. -/
def c2Final : Buddy :=
  ⟨[[], [], [], [], [], [], [], [], [], [⟨1024, 512⟩]],
    [1024], 512, 160, 0⟩

/-- Claim C2: on a fresh Buddy engine, `allocate(120, 8)` returns a range of
length 128 leaving `lists[7]` and `lists[8]` with one block each; a following
`allocate(32, 8)` returns a range of length 32 leaving `lists[5]`, `lists[6]`
and `lists[8]` with one block each and `lists[7]` empty; deallocating both
blocks in reverse order of allocation restores exactly one block on
`lists[9]` with every other list empty. -/
theorem c2_buddy_split_merge_trace :
    runBuddy demoBases Buddy.new [.alloc 120] =
      some ([⟨1024, 128⟩], c2Mid1) ∧
    runBuddy demoBases Buddy.new [.alloc 120, .alloc 32] =
      some ([⟨1024, 128⟩, ⟨1152, 32⟩], c2Mid2) ∧
    runBuddy demoBases Buddy.new [.alloc 120, .alloc 32, .free 1152 32, .free 1024 120] =
      some ([⟨1024, 128⟩, ⟨1152, 32⟩], c2Final) := by
  decide

/-- SFL state after `allocate(512)` then `deallocate(·, 512)` on a fresh
engine: the counters have gone negative. -/
def c3Final : SegregatedFreeList :=
  ⟨[[], [], [], [], [⟨1024, 512⟩]], [1024], 512, 0, -512⟩

/-- Claim C3 (code_bug evidence): on a fresh SFL engine, `allocate(512)`
exactly consumes the fresh chunk, so the split leaves no suffix and the
source skips the `current`/`peak` update; the following deallocate of that
block still subtracts 512, driving `current_allocated_size` to −512 < 0 and
contradicting the claimed counter invariant on a valid sequence. -/
theorem c3_sfl_negative_current :
    runSFL demoBases SegregatedFreeList.new [.alloc 512, .free 1024 512] =
      some ([⟨1024, 512⟩], c3Final) ∧
    c3Final.current_allocated_size < 0 := by
  decide

/-- SSS state after `allocate(300)` then `deallocate(·, 300)` on a fresh
engine: `lists[9]` holds a block of length 300, not `2^9`. -/
def c4Final : SimpleSegregatedStorage :=
  ⟨[[], [], [], [], [], [], [], [], [], [⟨1024, 300⟩]], [1024], 512, 512, 0⟩

/-- Claim C4 (code_bug evidence): SSS `deallocate` pushes the freed range
rewrapped with the caller-declared length, so after the valid sequence
`allocate(300)`, `deallocate(·, 300)` the block on `lists[9]` has length
300 ≠ 2^9, contradicting the claimed exact-size invariant. -/
theorem c4_sss_declared_length_on_list :
    runSSS demoBases SimpleSegregatedStorage.new [.alloc 300, .free 1024 300] =
      some ([⟨1024, 512⟩], c4Final) ∧
    listGet c4Final.lists 9 = [⟨1024, 300⟩] ∧ (300 : Nat) ≠ 2 ^ 9 := by
  decide

/-- SSS state after `allocate(300)`, `deallocate(·, 300)`, `allocate(300)`. -/
def c5Final : SimpleSegregatedStorage :=
  ⟨[[], [], [], [], [], [], [], [], [], []], [1024], 512, 512, 512⟩

/-- Claim C5 (code_bug evidence): after the valid SSS sequence
`allocate(300)`, `deallocate(·, 300)`, the next `allocate(300)` pops the
re-filed block and returns a range of length 300, while
`next_pow2(300) = 512`, contradicting the claimed SSS returned-length rule. -/
theorem c5_sss_returns_declared_length :
    runSSS demoBases SimpleSegregatedStorage.new
        [.alloc 300, .free 1024 300, .alloc 300] =
      some ([⟨1024, 512⟩, ⟨1024, 300⟩], c5Final) ∧
    (po2Round 300).1 = 512 ∧ (300 : Nat) ≠ 512 := by
  decide

/-- SFL state after `allocate(64, 8)` then `deallocate(·, 64, 8)` on a fresh
engine: the freed 64 bytes coalesced with the trailing 448-byte remainder. -/
def c6Final : SegregatedFreeList :=
  ⟨[[], [], [], [], [⟨1024, 512⟩]], [1024], 512, 64, 0⟩

/-- Claim C6: on a fresh SFL engine, after `allocate(64, 8)` succeeds and the
returned block is deallocated with declared size 64, `lists[4]` contains
exactly one free block, of length 512 (the freed 64 bytes merged with the
trailing 448-byte remainder by forward coalescing). -/
theorem c6_sfl_coalesce_trace :
    runSFL demoBases SegregatedFreeList.new [.alloc 64, .free 1024 64] =
      some ([⟨1024, 64⟩], c6Final) ∧
    listGet c6Final.lists 4 = [⟨1024, 512⟩] := by
  decide

/-- Claim C7: for every engine and every state, `allocate` with `size > 512`
returns the distinguished allocation error and leaves the engine state —
free lists, arena vector and counters — exactly unchanged, so in particular
no arena chunk is acquired from the host. -/
theorem c7_oversize_request_error (bases : Nat → Nat) (s1 : SimpleSegregatedStorage)
    (s2 : SegregatedFreeList) (s3 : Buddy) (n : Nat) (h : 512 < n) :
    SimpleSegregatedStorage.allocate bases s1 n = .error s1 ∧
    SegregatedFreeList.allocate bases s2 n = .error s2 ∧
    Buddy.allocate bases s3 n = .error s3 := by
  refine ⟨?_, ?_, ?_⟩
  · simp only [SimpleSegregatedStorage.allocate]
    rw [if_pos h]
  · simp only [SegregatedFreeList.allocate]
    rw [if_pos h]
  · simp only [Buddy.allocate]
    rw [if_pos h]

/-- Witness for C7 at the concrete request size 513 on fresh engines. -/
theorem c7_oversize_witness :
    SimpleSegregatedStorage.allocate demoBases SimpleSegregatedStorage.new 513 =
      .error SimpleSegregatedStorage.new ∧
    SegregatedFreeList.allocate demoBases SegregatedFreeList.new 513 =
      .error SegregatedFreeList.new ∧
    Buddy.allocate demoBases Buddy.new 513 = .error Buddy.new :=
  c7_oversize_request_error demoBases SimpleSegregatedStorage.new
    SegregatedFreeList.new Buddy.new 513 (by decide)

/-- Mapping every list of a list array to the empty list yields the all-empty
array (the drain loop of `reset`). -/
theorem map_drain_eq_replicate (ls : List (List Block)) :
    ls.map (fun _ => ([] : List Block)) = List.replicate ls.length [] := by
  induction ls with
  | nil => rfl
  | cons h t ih => simp [List.replicate, ih]

/-- Claim C8: for every engine whose list array has the constructed width,
`reset` zeroes the three counters, releases every arena chunk (clearing the
base vector) and empties every free list, leaving the engine in exactly the
observable state of a freshly constructed engine. -/
theorem c8_reset_restores_fresh_state (s1 : SimpleSegregatedStorage)
    (s2 : SegregatedFreeList) (s3 : Buddy) (h1 : s1.lists.length = 10)
    (h2 : s2.lists.length = 5) (h3 : s3.lists.length = 10) :
    s1.reset = SimpleSegregatedStorage.new ∧
    s2.reset = SegregatedFreeList.new ∧
    s3.reset = Buddy.new := by
  refine ⟨?_, ?_, ?_⟩
  · simp [SimpleSegregatedStorage.reset, SimpleSegregatedStorage.new,
      map_drain_eq_replicate, h1]
  · simp [SegregatedFreeList.reset, SegregatedFreeList.new,
      map_drain_eq_replicate, h2]
  · simp [Buddy.reset, Buddy.new, map_drain_eq_replicate, h3]

/-- Witness for C8 on freshly constructed engines. -/
theorem c8_reset_witness :
    SimpleSegregatedStorage.new.reset = SimpleSegregatedStorage.new ∧
    SegregatedFreeList.new.reset = SegregatedFreeList.new ∧
    Buddy.new.reset = Buddy.new :=
  c8_reset_restores_fresh_state SimpleSegregatedStorage.new SegregatedFreeList.new
    Buddy.new (by decide) (by decide) (by decide)

/-- Claim C9: for every engine and every state, `allocate` with `size = 0`
neither returns a block nor the allocation error: the rounding step computes
`size - 1` on an unsigned integer, which underflows, so the call faults
(panics).  `allocate` is well-behaved only for `size ≥ 1`. -/
theorem c9_zero_size_request_faults (bases : Nat → Nat)
    (s1 : SimpleSegregatedStorage) (s2 : SegregatedFreeList) (s3 : Buddy) :
    SimpleSegregatedStorage.allocate bases s1 0 = .fault ∧
    SegregatedFreeList.allocate bases s2 0 = .fault ∧
    Buddy.allocate bases s3 0 = .fault :=
  ⟨rfl, rfl, rfl⟩

/-- Claim C10: Buddy `deallocate` unconditionally reads `first_byte_ptrs[0]`
before anything else, so on an engine holding no arena chunk — freshly
constructed, or any engine after `reset` — every `deallocate` call faults
(out-of-bounds index) instead of returning or reporting an error. -/
theorem c10_deallocate_without_arena_faults (s : Buddy) (p size : Nat) :
    Buddy.deallocate Buddy.new p size = none ∧
    Buddy.deallocate s.reset p size = none :=
  ⟨rfl, rfl⟩

end DMM

